import Mathlib

/-!
Shallow embedding of `src/anywidget/experimental.py`.

The module under verification is a thin decorator layer: `widget` stores a
`MimeBundleDescriptor` on a class, `dataclass` composes three decorators,
`command` tags a callable, `_collect_commands` scans an object for tagged
callables, and `_register_anywidget_commands` installs a message handler
that dispatches `anywidget-command` messages by name and sends one response.

Python scalar values are modelled by `PyValue`; Python dicts keyed by
strings are association lists with first-match lookup and
update-or-append assignment (`dictGet` / `dictSet`), matching Python dict
semantics for unique keys.  Side effects of the handler (invoking a
command, calling `self.send`) are recorded as an explicit event trace, and
a raised `KeyError` is an explicit outcome.
-/

set_option autoImplicit false

namespace Anywidget

/-- Python scalar values (the payloads the claims quantify over). -/
inductive PyValue where
  | none
  | bool (b : Bool)
  | int (n : Int)
  | str (s : String)
  deriving DecidableEq, Repr

/-- Python truthiness of a `PyValue`, as used by `if callable(attr) and
getattr(attr, _ANYWIDGET_COMMAND, False)`. -/
def truthy : PyValue → Bool
  | PyValue.none => false
  | PyValue.bool b => b
  | PyValue.int n => n != 0
  | PyValue.str s => s != ""

/-- A binary buffer (Python `bytes`). -/
abbrev Buffer := List Nat

/-- `d[k]` on a string-keyed Python dict, `Option.none` when the key is
absent (Python raises `KeyError`, or `.get` returns `None`). -/
def dictGet {α : Type} : List (String × α) → String → Option α
  | [], _ => Option.none
  | (k', v) :: rest, k => if k' = k then some v else dictGet rest k

/-- `d[k] = v` on a string-keyed Python dict: replace the existing entry
for `k`, or append a new one. -/
def dictSet {α : Type} : List (String × α) → String → α → List (String × α)
  | [], k, v => [(k, v)]
  | (k', v') :: rest, k, v =>
      if k' = k then (k, v) :: rest else (k', v') :: dictSet rest k v

/-- The behaviour of a bound anywidget command: it receives the message
payload and the buffers and returns a response and new buffers
(`_AnyWidgetCommandBound` in the source). -/
abbrev BoundCmd := PyValue → List Buffer → PyValue × List Buffer

/-- A Python attribute of a widget object, as `_collect_commands` sees it:
whether it is callable, its own attribute dict (where the
`_anywidget_command` tag lives), and its call behaviour when used as a
bound command. -/
structure PyAttr where
  callable : Bool
  attrs : List (String × PyValue)
  fn : BoundCmd

/-- The messages the registered handler can receive: `msg: str | list | dict`. -/
inductive Msg where
  | str (s : String)
  | list (xs : List PyValue)
  | dict (entries : List (String × PyValue))
  deriving DecidableEq, Repr

/-- An observable side effect of `handle_anywidget_command`: invoking the
command registered under a name, or calling `self.send` with a payload
dict and buffers. -/
inductive Event where
  | callCmd (name : String) (arg : PyValue) (buffers : List Buffer)
  | send (payload : List (String × PyValue)) (buffers : List Buffer)
  deriving DecidableEq, Repr

/-- The outcome of one run of the handler: a normal return carrying the
trace of effects, or a raised `KeyError` (with the offending key and the
effects that happened before the raise). -/
inductive HandlerOutcome where
  | ok (trace : List Event)
  | keyError (key : PyValue) (trace : List Event)
  deriving DecidableEq, Repr

/-- Python `cmds[v]` where `cmds` is keyed by strings and `v` is an
arbitrary message value: only a string value can match a key; any other
scalar is hashable but unequal to every key, so lookup misses. -/
def cmdLookup (cmds : List (String × PyAttr)) : PyValue → Option (String × PyAttr)
  | PyValue.str s => (dictGet cmds s).map (fun a => (s, a))
  | _ => Option.none

/-- `handle_anywidget_command` (source lines 152-166), acting on the
command map captured at registration time.  Returns silently unless `msg`
is a dict whose `"kind"` is `"anywidget-command"`; then looks up
`cmds[msg["name"]]` (a missing key raises `KeyError` with an empty trace),
calls the command with `msg["msg"]` and the buffers, and sends the
response dict with the buffers returned by the command. -/
def handle_anywidget_command (cmds : List (String × PyAttr)) (msg : Msg)
    (buffers : List Buffer) : HandlerOutcome :=
  match msg with
  | Msg.dict entries =>
    if dictGet entries "kind" = some (PyValue.str "anywidget-command") then
      match dictGet entries "name" with
      | Option.none => HandlerOutcome.keyError (PyValue.str "name") []
      | some nameVal =>
        match cmdLookup cmds nameVal with
        | Option.none => HandlerOutcome.keyError nameVal []
        | some (n, a) =>
          match dictGet entries "msg" with
          | Option.none => HandlerOutcome.keyError (PyValue.str "msg") []
          | some m =>
            let r := a.fn m buffers
            match dictGet entries "id" with
            | Option.none =>
                HandlerOutcome.keyError (PyValue.str "id") [Event.callCmd n m buffers]
            | some i =>
                HandlerOutcome.ok
                  [Event.callCmd n m buffers,
                   Event.send
                     [("id", i),
                      ("kind", PyValue.str "anywidget-command-response"),
                      ("response", r.1)]
                     r.2]
    else HandlerOutcome.ok []
  | _ => HandlerOutcome.ok []

/-- A widget object as `_collect_commands` inspects it: `dir(widget)` is a
list of attribute names, and `getattr` yields the attribute, or
`Option.none` when the access raises the `AssertionError` the source
suppresses. -/
structure PyWidget where
  dirList : List String
  getattr : String → Option PyAttr

/-- The body of the `_collect_commands` loop for one attribute name:
`getattr` under `contextlib.suppress(AssertionError)`, then the
`callable(attr) and getattr(attr, _ANYWIDGET_COMMAND, False)` test;
yields the attribute to store, or `Option.none` when it is skipped. -/
def collectStep (w : PyWidget) (attr_name : String) : Option PyAttr :=
  match w.getattr attr_name with
  | Option.none => Option.none
  | some attr =>
      if attr.callable && truthy ((dictGet attr.attrs "_anywidget_command").getD (PyValue.bool false))
      then some attr else Option.none

/-- The `for attr_name in dir(widget)` loop of `_collect_commands`,
threading the `cmds` dict. -/
def collectLoop (w : PyWidget) : List String → List (String × PyAttr) → List (String × PyAttr)
  | [], cmds => cmds
  | attr_name :: rest, cmds =>
      match collectStep w attr_name with
      | some attr => collectLoop w rest (dictSet cmds attr_name attr)
      | Option.none => collectLoop w rest cmds

/-- `_collect_commands` (source lines 131-140). -/
def _collect_commands (w : PyWidget) : List (String × PyAttr) :=
  collectLoop w w.dirList []

/-- The observable result of `_register_anywidget_commands`: the Python
return value (always `None`) and the list of handlers passed to
`widget.on_msg`. -/
structure RegisterResult where
  retval : Option PyValue
  on_msg_calls : List (Msg → List Buffer → HandlerOutcome)

/-- `_register_anywidget_commands` (source lines 143-168): collect the
commands once; if there are none, return `None` without touching the
widget; otherwise call `widget.on_msg` once with the handler closure over
the collected command map. -/
def _register_anywidget_commands (w : PyWidget) : RegisterResult :=
  let cmds := _collect_commands w
  if cmds.length = 0 then { retval := Option.none, on_msg_calls := [] }
  else { retval := Option.none, on_msg_calls := [handle_anywidget_command cmds] }

/-- `MimeBundleDescriptor(**kwargs)`: the descriptor records the keyword
arguments it was constructed with. -/
structure MimeBundleDescriptor where
  kwargs : List (String × PyValue)
  deriving DecidableEq, Repr

/-- A class attribute: a plain value or a stored descriptor. -/
inductive ClassAttr where
  | val (v : PyValue)
  | descriptor (d : MimeBundleDescriptor)
  deriving DecidableEq, Repr

/-- A Python class, seen as its attribute dict. -/
structure PyClass where
  attrs : List (String × ClassAttr)
  deriving DecidableEq, Repr

/-- The keyword dict built by `widget` before it returns `_decorator`
(source lines 43-45): `kwargs["_esm"] = esm`, then `kwargs["_css"] = css`
only when `css is not None`. -/
def widget_kwargs (esm : PyValue) (css : Option PyValue)
    (kwargs : List (String × PyValue)) : List (String × PyValue) :=
  let kwargs := dictSet kwargs "_esm" esm
  match css with
  | Option.none => kwargs
  | some c => dictSet kwargs "_css" c

/-- The `_decorator` returned by `widget(esm=..., css=..., **kwargs)`
(source lines 47-51): `setattr(cls, "_repr_mimebundle_",
MimeBundleDescriptor(**kwargs))`, then return the class. -/
def widget_decorator (esm : PyValue) (css : Option PyValue)
    (kwargs : List (String × PyValue)) (cls : PyClass) : PyClass :=
  { attrs :=
      dictSet cls.attrs "_repr_mimebundle_"
        (ClassAttr.descriptor { kwargs := widget_kwargs esm css kwargs }) }

/-- `dataclass` (source lines 103-109), parameterised by the two external
transformations it composes: `dataclasses.dataclass` (taking the extra
dataclass keyword arguments) and `psygnal.evented`.  With `cls` given it
returns the decorated class; with `cls = None` it returns the decorator
itself. -/
def dataclass (dc : List (String × PyValue) → PyClass → PyClass)
    (ev : PyClass → PyClass) (esm : PyValue) (css : Option PyValue)
    (dataclass_kwargs : List (String × PyValue)) (cls : Option PyClass) :
    PyClass ⊕ (PyClass → PyClass) :=
  let deco : PyClass → PyClass := fun c =>
    widget_decorator esm css [] (ev (dc dataclass_kwargs c))
  match cls with
  | some c => Sum.inl (deco c)
  | Option.none => Sum.inr deco

/-- `command` (source lines 120-123): set `_anywidget_command = True` on
the callable and return it. -/
def command (cmd : PyAttr) : PyAttr :=
  { cmd with attrs := dictSet cmd.attrs "_anywidget_command" (PyValue.bool true) }

/-- The host message loop delivering a sequence of messages to the handler
registered over a fixed command map: the closure holds no mutable state,
so each delivery is an independent call. -/
def processMessages (cmds : List (String × PyAttr))
    (msgs : List (Msg × List Buffer)) : List HandlerOutcome :=
  msgs.map (fun p => handle_anywidget_command cmds p.1 p.2)

/-- `true` exactly when the handler raised `KeyError` having produced no
effect: no command invoked, nothing sent. -/
def raisesKeyErrorNoEffect : HandlerOutcome → Bool
  | HandlerOutcome.keyError _ [] => true
  | _ => false

@[simp]
theorem dictGet_dictSet_same {α : Type} (d : List (String × α)) (k : String) (v : α) :
    dictGet (dictSet d k v) k = some v := by
  induction d with
  | nil => simp [dictGet, dictSet]
  | cons p rest ih =>
      obtain ⟨k', v'⟩ := p
      by_cases h : k' = k <;> simp [dictGet, dictSet, h, ih]

theorem dictGet_dictSet_ne {α : Type} (d : List (String × α)) (k k' : String) (v : α)
    (h : k ≠ k') : dictGet (dictSet d k v) k' = dictGet d k' := by
  induction d with
  | nil => simp [dictGet, dictSet, h]
  | cons p rest ih =>
      obtain ⟨a, b⟩ := p
      by_cases ha : a = k
      · subst ha; simp [dictGet, dictSet, h]
      · simp [dictGet, dictSet, ha, ih]

/-- **C1.** When the handler receives a dict message whose `"kind"` is
`"anywidget-command"` and whose `"name"` is a key `N` of the collected
command map, it invokes the command bound to `N` exactly once with
`msg["msg"]` and the incoming buffers, and then calls `self.send` exactly
once with the dict `{"id": msg["id"], "kind":
"anywidget-command-response", "response": r}` and the buffer list the
command returned, `r` being the command's response value. -/
theorem handle_anywidget_command_dispatches
    (cmds : List (String × PyAttr)) (entries : List (String × PyValue))
    (buffers : List Buffer) (N : String) (a : PyAttr) (m i : PyValue)
    (hkind : dictGet entries "kind" = some (PyValue.str "anywidget-command"))
    (hname : dictGet entries "name" = some (PyValue.str N))
    (hcmd : dictGet cmds N = some a)
    (hmsg : dictGet entries "msg" = some m)
    (hid : dictGet entries "id" = some i) :
    handle_anywidget_command cmds (Msg.dict entries) buffers =
      HandlerOutcome.ok
        [Event.callCmd N m buffers,
         Event.send
           [("id", i),
            ("kind", PyValue.str "anywidget-command-response"),
            ("response", (a.fn m buffers).1)]
           (a.fn m buffers).2] := by
  simp [handle_anywidget_command, cmdLookup, hkind, hname, hcmd, hmsg, hid]

/-- **C1 witness.** -/
theorem handle_anywidget_command_dispatches_witness :
    dictGet [("go", PyAttr.mk true [("_anywidget_command", PyValue.bool true)]
        (fun m b => (m, b)))] "go" =
      some (PyAttr.mk true [("_anywidget_command", PyValue.bool true)]
        (fun m b => (m, b))) ∧
    handle_anywidget_command
        [("go", PyAttr.mk true [("_anywidget_command", PyValue.bool true)]
          (fun m b => (m, b)))]
        (Msg.dict [("kind", PyValue.str "anywidget-command"),
                   ("name", PyValue.str "go"),
                   ("msg", PyValue.int 5),
                   ("id", PyValue.int 1)])
        [[7]] =
      HandlerOutcome.ok
        [Event.callCmd "go" (PyValue.int 5) [[7]],
         Event.send
           [("id", PyValue.int 1),
            ("kind", PyValue.str "anywidget-command-response"),
            ("response", PyValue.int 5)]
           [[7]]] := by
  refine ⟨rfl, ?_⟩
  exact handle_anywidget_command_dispatches
    [("go", PyAttr.mk true [("_anywidget_command", PyValue.bool true)]
      (fun m b => (m, b)))]
    [("kind", PyValue.str "anywidget-command"), ("name", PyValue.str "go"),
     ("msg", PyValue.int 5), ("id", PyValue.int 1)]
    [[7]] "go"
    (PyAttr.mk true [("_anywidget_command", PyValue.bool true)] (fun m b => (m, b)))
    (PyValue.int 5) (PyValue.int 1) rfl rfl rfl rfl rfl

/-- **C5.** With a non-empty command map, a dict message of kind
`"anywidget-command"` whose `"name"` is absent or names no collected
command makes the handler raise `KeyError` with no command invoked and no
response sent. -/
theorem handle_unknown_name_keyerror
    (cmds : List (String × PyAttr)) (entries : List (String × PyValue))
    (buffers : List Buffer)
    (_hne : cmds ≠ [])
    (hkind : dictGet entries "kind" = some (PyValue.str "anywidget-command"))
    (hmiss : ∀ v, dictGet entries "name" = some v → cmdLookup cmds v = Option.none) :
    raisesKeyErrorNoEffect
      (handle_anywidget_command cmds (Msg.dict entries) buffers) = true := by
  cases hname : dictGet entries "name" with
  | none => simp [handle_anywidget_command, hkind, hname, raisesKeyErrorNoEffect]
  | some v =>
      simp [handle_anywidget_command, hkind, hname, hmiss v hname,
        raisesKeyErrorNoEffect]

/-- **C5 witness.** -/
theorem handle_unknown_name_keyerror_witness :
    dictGet [("kind", PyValue.str "anywidget-command"),
             ("name", PyValue.str "nope"),
             ("msg", PyValue.int 0),
             ("id", PyValue.int 2)] "name" = some (PyValue.str "nope") ∧
    raisesKeyErrorNoEffect
      (handle_anywidget_command
        [("go", PyAttr.mk true [] (fun m b => (m, b)))]
        (Msg.dict [("kind", PyValue.str "anywidget-command"),
                   ("name", PyValue.str "nope"),
                   ("msg", PyValue.int 0),
                   ("id", PyValue.int 2)])
        []) = true := by
  refine ⟨rfl, ?_⟩
  refine handle_unknown_name_keyerror _ _ _ (by simp) rfl ?_
  intro v hv
  injection hv with hv
  subst hv
  rfl

/-- **C6.** A message that is not a dict, or whose `"kind"` is not
`"anywidget-command"`, makes the handler return `None` without invoking
any command and without calling `self.send`. -/
theorem handle_non_command_silent
    (cmds : List (String × PyAttr)) (msg : Msg) (buffers : List Buffer)
    (hnot : ∀ entries, msg = Msg.dict entries →
      dictGet entries "kind" ≠ some (PyValue.str "anywidget-command")) :
    handle_anywidget_command cmds msg buffers = HandlerOutcome.ok [] := by
  cases msg with
  | str s => rfl
  | list xs => rfl
  | dict entries => simp [handle_anywidget_command, hnot entries rfl]

/-- **C6 witness.** -/
theorem handle_non_command_silent_witness :
    handle_anywidget_command
      [("go", PyAttr.mk true [] (fun m b => (m, b)))]
      (Msg.dict [("kind", PyValue.str "custom"), ("name", PyValue.str "go")])
      [[1, 2]] = HandlerOutcome.ok [] := by
  refine handle_non_command_silent _ _ _ ?_
  intro e he
  injection he with he
  subst he
  decide

/-- **C10.** Dispatch is stateless and deterministic: over a fixed command
map of (pure) commands, the outcome of the message delivered at any
position of a run is a function of that message and its buffers alone, so
two runs handling the same message produce the same outcome regardless of
what other messages either run handled. -/
theorem dispatch_deterministic_stateless
    (cmds : List (String × PyAttr))
    (ms1 ms2 : List (Msg × List Buffer)) (i j : Nat)
    (h : ms1[i]? = ms2[j]?) :
    (processMessages cmds ms1)[i]? = (processMessages cmds ms2)[j]? := by
  simp [processMessages, List.getElem?_map, h]

/-- **C10 witness.** -/
theorem dispatch_deterministic_stateless_witness :
    ([(Msg.str "a", ([] : List Buffer))])[0]? =
      ([(Msg.str "b", ([] : List Buffer)), (Msg.str "a", ([] : List Buffer))])[1]? ∧
    (processMessages [] [(Msg.str "a", ([] : List Buffer))])[0]? =
      (processMessages []
        [(Msg.str "b", ([] : List Buffer)), (Msg.str "a", ([] : List Buffer))])[1]? := by
  refine ⟨by decide, ?_⟩
  exact dispatch_deterministic_stateless [] _ _ 0 1 (by decide)

theorem dictGet_collectLoop (w : PyWidget) (names : List String)
    (acc : List (String × PyAttr)) (n : String) :
    dictGet (collectLoop w names acc) n =
      if n ∈ names ∧ (collectStep w n).isSome then collectStep w n
      else dictGet acc n := by
  induction names generalizing acc with
  | nil => simp [collectLoop]
  | cons m rest ih =>
      simp only [collectLoop]
      cases hm : collectStep w m with
      | none =>
          rw [ih]
          by_cases hn : n = m
          · subst hn; simp [hm]
          · simp [List.mem_cons, hn]
      | some a =>
          rw [ih]
          by_cases hcond : n ∈ rest ∧ (collectStep w n).isSome
          · simp [hcond, List.mem_cons, hcond.1]
          · by_cases hn : n = m
            · subst hn
              simp [hcond, hm, dictGet_dictSet_same]
            · rw [dictGet_dictSet_ne _ _ _ _ (Ne.symm hn)]
              simp [hcond, List.mem_cons, hn]

/-- **C4.** `_collect_commands` returns exactly the flat mapping whose
keys are the names listed by `dir(widget)` whose attribute access
succeeds, is callable and carries a truthy `_anywidget_command` tag
(`collectStep`), each mapped to that bound attribute; every other name is
absent from the mapping. -/
theorem collect_commands_characterization (w : PyWidget) (n : String) :
    dictGet (_collect_commands w) n =
      if n ∈ w.dirList then collectStep w n else Option.none := by
  rw [_collect_commands, dictGet_collectLoop]
  by_cases h1 : n ∈ w.dirList
  · cases hs : collectStep w n <;> simp [h1, hs, dictGet]
  · simp [h1, dictGet]

/-- **C9.** `_register_anywidget_commands` always returns `None`; it calls
`widget.on_msg` exactly once, with the dispatch handler closed over the
command map collected at registration time, when that map is non-empty,
and never calls `on_msg` when the map is empty. -/
theorem register_calls_on_msg_iff_commands (w : PyWidget) :
    (_register_anywidget_commands w).retval = Option.none ∧
    (_register_anywidget_commands w).on_msg_calls =
      (if (_collect_commands w).length = 0 then []
       else [handle_anywidget_command (_collect_commands w)]) := by
  unfold _register_anywidget_commands
  by_cases h : (_collect_commands w).length = 0 <;> simp [h]

/-- **C7.** `command` returns the callable with `_anywidget_command` set
to `True`; its call behaviour, its callability and every other attribute
are unchanged. -/
theorem command_tags_callable (f : PyAttr) :
    (command f).fn = f.fn ∧
    (command f).callable = f.callable ∧
    dictGet (command f).attrs "_anywidget_command" = some (PyValue.bool true) ∧
    (∀ n, n ≠ "_anywidget_command" →
      dictGet (command f).attrs n = dictGet f.attrs n) := by
  refine ⟨rfl, rfl, dictGet_dictSet_same _ _ _, ?_⟩
  intro n hn
  exact dictGet_dictSet_ne _ _ _ _ (fun h => hn h.symm)

/-- **C7 witness.** -/
theorem command_tags_callable_witness :
    dictGet (command (PyAttr.mk false [("doc", PyValue.str "d")]
        (fun m b => (m, b)))).attrs "_anywidget_command" =
      some (PyValue.bool true) ∧
    dictGet (command (PyAttr.mk false [("doc", PyValue.str "d")]
        (fun m b => (m, b)))).attrs "doc" =
      dictGet [("doc", PyValue.str "d")] "doc" := by
  refine ⟨(command_tags_callable
    (PyAttr.mk false [("doc", PyValue.str "d")] (fun m b => (m, b)))).2.2.1, ?_⟩
  exact (command_tags_callable
    (PyAttr.mk false [("doc", PyValue.str "d")] (fun m b => (m, b)))).2.2.2
    "doc" (by decide)

/-- **C2.** Applying the decorator returned by `widget(esm=..., css=...,
**kwargs)` to a class stores on `_repr_mimebundle_` a
`MimeBundleDescriptor` built from the keyword arguments extended with
`_esm = esm` (and `_css = css` when `css` is not `None`), and modifies no
other attribute of the class. -/
theorem widget_decorator_sets_descriptor (esm : PyValue) (css : Option PyValue)
    (kwargs : List (String × PyValue)) (cls : PyClass) :
    dictGet (widget_decorator esm css kwargs cls).attrs "_repr_mimebundle_" =
      some (ClassAttr.descriptor { kwargs := widget_kwargs esm css kwargs }) ∧
    dictGet (widget_kwargs esm css kwargs) "_esm" = some esm ∧
    (∀ c, css = some c →
      dictGet (widget_kwargs esm css kwargs) "_css" = some c) ∧
    (∀ k, k ≠ "_esm" → k ≠ "_css" →
      dictGet (widget_kwargs esm css kwargs) k = dictGet kwargs k) ∧
    (∀ n, n ≠ "_repr_mimebundle_" →
      dictGet (widget_decorator esm css kwargs cls).attrs n = dictGet cls.attrs n) := by
  refine ⟨dictGet_dictSet_same _ _ _, ?_, ?_, ?_, ?_⟩
  · cases css with
    | none => exact dictGet_dictSet_same _ _ _
    | some c =>
        rw [widget_kwargs]
        rw [dictGet_dictSet_ne _ _ _ _ (by decide)]
        exact dictGet_dictSet_same _ _ _
  · intro c hc
    subst hc
    exact dictGet_dictSet_same _ _ _
  · intro k hesm hcss
    cases css with
    | none => exact dictGet_dictSet_ne _ _ _ _ (fun h => hesm h.symm)
    | some c =>
        rw [widget_kwargs]
        rw [dictGet_dictSet_ne _ _ _ _ (fun h => hcss h.symm)]
        exact dictGet_dictSet_ne _ _ _ _ (fun h => hesm h.symm)
  · intro n hn
    exact dictGet_dictSet_ne _ _ _ _ (fun h => hn h.symm)

/-- **C2 witness.** -/
theorem widget_decorator_sets_descriptor_witness :
    dictGet (widget_decorator (PyValue.str "index.js")
        (some (PyValue.str "styles.css")) [("autodetect", PyValue.bool true)]
        (PyClass.mk [("value", ClassAttr.val (PyValue.int 0))])).attrs
        "_repr_mimebundle_" =
      some (ClassAttr.descriptor
        { kwargs := widget_kwargs (PyValue.str "index.js")
            (some (PyValue.str "styles.css")) [("autodetect", PyValue.bool true)] }) ∧
    dictGet (widget_decorator (PyValue.str "index.js")
        (some (PyValue.str "styles.css")) [("autodetect", PyValue.bool true)]
        (PyClass.mk [("value", ClassAttr.val (PyValue.int 0))])).attrs "value" =
      dictGet [("value", ClassAttr.val (PyValue.int 0))] "value" := by
  refine ⟨(widget_decorator_sets_descriptor (PyValue.str "index.js")
    (some (PyValue.str "styles.css")) [("autodetect", PyValue.bool true)]
    (PyClass.mk [("value", ClassAttr.val (PyValue.int 0))])).1, ?_⟩
  exact (widget_decorator_sets_descriptor (PyValue.str "index.js")
    (some (PyValue.str "styles.css")) [("autodetect", PyValue.bool true)]
    (PyClass.mk [("value", ClassAttr.val (PyValue.int 0))])).2.2.2.2
    "value" (by decide)

/-- **C8.** `esm` is always recorded (`_esm = esm`); the stylesheet is
optional: with `css = None` (and no separate `_css` keyword) the
descriptor's keyword dict has no `_css` entry, and with `css` given it has
`_css = css`. -/
theorem widget_css_optional (esm : PyValue) (kwargs : List (String × PyValue)) :
    (∀ css, dictGet (widget_kwargs esm css kwargs) "_esm" = some esm) ∧
    (dictGet kwargs "_css" = Option.none →
      dictGet (widget_kwargs esm Option.none kwargs) "_css" = Option.none) ∧
    (∀ c, dictGet (widget_kwargs esm (some c) kwargs) "_css" = some c) := by
  refine ⟨?_, ?_, ?_⟩
  · intro css
    cases css with
    | none => exact dictGet_dictSet_same _ _ _
    | some c =>
        rw [widget_kwargs]
        rw [dictGet_dictSet_ne _ _ _ _ (by decide)]
        exact dictGet_dictSet_same _ _ _
  · intro h
    rw [widget_kwargs]
    rw [dictGet_dictSet_ne _ _ _ _ (by decide)]
    exact h
  · intro c
    exact dictGet_dictSet_same _ _ _

/-- **C8 witness.** -/
theorem widget_css_optional_witness :
    dictGet [("binary", PyValue.bool true)] "_css" = Option.none ∧
    dictGet (widget_kwargs (PyValue.str "widget.js") Option.none
      [("binary", PyValue.bool true)]) "_css" = Option.none := by
  refine ⟨by decide, ?_⟩
  exact (widget_css_optional (PyValue.str "widget.js")
    [("binary", PyValue.bool true)]).2.1 (by decide)

/-- **C3.** `dataclass` applies exactly three transformations in order —
`dataclasses.dataclass` with the extra keyword arguments, then
`psygnal.evented`, then the `widget` decorator with the given `esm` and
`css` — and returns the result of that composition (as the decorated class
when `cls` is given, as the composed decorator when it is not). -/
theorem dataclass_composes_three_transformations
    (dc : List (String × PyValue) → PyClass → PyClass) (ev : PyClass → PyClass)
    (esm : PyValue) (css : Option PyValue) (dkw : List (String × PyValue)) :
    (∀ cls, dataclass dc ev esm css dkw (some cls) =
      Sum.inl (widget_decorator esm css [] (ev (dc dkw cls)))) ∧
    dataclass dc ev esm css dkw Option.none =
      Sum.inr (fun cls => widget_decorator esm css [] (ev (dc dkw cls))) := by
  exact ⟨fun cls => rfl, rfl⟩

end Anywidget
